import Mathlib

/-!
Verification of the RAG micro-service turn pipeline
(`src/services/RAG_service/app.py`).

The service processes one conversational turn: it rewrites the question and
classifies escalation intent with one structured LLM call, then either
(escalation branch) summarizes the transcript and records an escalation row,
or (retrieval branch) extracts comma-separated tags with a second LLM call,
runs a vector search and joins the returned chunks.

Shallow embedding conventions:
* Every external collaborator (the LLM completion service, the vector index,
  the MySQL store) is a component of an `Env` record of response functions,
  so each turn is a pure function of the request and the environment.
* Python exceptions are `Except`: the structured-output decoding of the
  normalizer call can fail (`json.loads` failure, missing key, non-string
  field), the vector search can fail (any exception, caught in `retrieve`),
  and the DB insert can fail (`mysql.connector.Error`, caught in
  `write_escalation`).  LLM transport calls that the source does not guard
  are modelled as total response functions (a transport failure there would
  abort the turn in a way no claim concerns).
* Python `x or y` on falsy values is modelled explicitly (`pyOrStr`,
  `pyOrInt`).
* The observable external calls of a turn are collected in a trace of
  `Event`s, in program order.
-/

deriving instance DecidableEq for Except

namespace RAG

/-- Python `str.strip()` on a character list: drop leading and trailing
whitespace (modelled with `Char.isWhitespace`). -/
def stripChars (l : List Char) : List Char :=
  ((l.dropWhile Char.isWhitespace).reverse.dropWhile Char.isWhitespace).reverse

/-- Python `str.strip()`. -/
def pyStrip (s : String) : String :=
  ⟨stripChars s.data⟩

/-- Python `str.split(",")` on a character list: the groups between commas,
empty groups kept. -/
def splitCommaChars : List Char → List (List Char)
  | [] => [[]]
  | c :: rest =>
    if c = ',' then [] :: splitCommaChars rest
    else
      match splitCommaChars rest with
      | [] => [[c]]
      | g :: gs => (c :: g) :: gs

/-- Python `str.split(",")`. -/
def pySplitComma (s : String) : List String :=
  (splitCommaChars s.data).map fun l => ⟨l⟩

/-- A decoded JSON value as Python sees it (the shapes that can appear in the
function-call `arguments` object). -/
inductive PyVal where
  | str (s : String)
  | bool (b : Bool)
  | int (n : Int)
  | null
  deriving DecidableEq

/-- Python truthiness, as used by `bool(args["is_escalation"])`. -/
def truthy : PyVal → Bool
  | .str s => s ≠ ""
  | .bool b => b
  | .int n => n ≠ 0
  | .null => false

/-- A decoded JSON object: the result of `json.loads` on the function-call
arguments. -/
abbrev PyDict := List (String × PyVal)

/-- `d[key]` lookup; `none` is Python's `KeyError`. -/
def dictGet (d : PyDict) (key : String) : Option PyVal :=
  match d.find? (fun p => p.1 == key) with
  | some p => some p.2
  | none => none

/-- Python `a or b` for `a : Optional[str]`: `None` and `""` are falsy. -/
def pyOrStr : Option String → String → String
  | none, d => d
  | some s, d => if s = "" then d else s

/-- Python `a or b` for `a : Optional[int]`: `None` and `0` are falsy. -/
def pyOrInt : Option Int → Int → Int
  | none, d => d
  | some n, d => if n = 0 then d else n

/-- The pydantic `RagRequest` model: `question` required, the rest optional. -/
structure RagRequest where
  question : String
  history : Option String := none
  caller_number : Option String := none
  escalated_to : Option String := none
  k : Option Int := none
  deriving DecidableEq

/-- The pydantic `RagResponse` model. -/
structure RagResponse where
  context : String
  is_escalation : Bool
  deriving DecidableEq

/-- Exceptions that can escape a turn (propagated out of `get_context`). -/
inductive RagError where
  /-- `json.loads` fails on the function-call arguments. -/
  | jsonDecodeError
  /-- `args[key]` raises `KeyError`. -/
  | keyError (key : String)
  /-- `.strip()` on a non-string `rewritten_query` raises `AttributeError`. -/
  | attributeError
  /-- a DB exception escaping `write_escalation` (shown unreachable). -/
  | dbError
  deriving DecidableEq

/-- One observable external call of a turn, with its arguments. -/
inductive Event where
  /-- the structured normalizer LLM call, with the user-message content. -/
  | normalizerCall (userContent : String)
  /-- the tag-extraction LLM call, with the query being tagged. -/
  | tagCall (query : String)
  /-- the vector search, with the tag list and the result limit. -/
  | searchCall (tags : List String) (limit : Int)
  /-- the summarizer LLM call, with the transcript text sent. -/
  | summarizerCall (text : String)
  /-- the DB insert, with the three column values. -/
  | recordCall (caller escalatedTo reason : String)
  deriving DecidableEq

/-- The environment of external collaborators: each field maps the arguments
the program sends to the response the outside world gives back. -/
structure Env where
  /-- `DEFAULT_K = int(os.getenv("RAG_TOP_K", 4))`. -/
  default_k : Int
  /-- the decoded function-call arguments of the structured normalizer call,
  as a function of the user-message content; `.error` is a `json.loads`
  failure. -/
  normalizer_args : String → Except Unit PyDict
  /-- the content string returned by the tag-extraction LLM call. -/
  tag_llm : String → String
  /-- the vector search: `.ok` is the chunk-text list in rank order,
  `.error` is any exception raised by the search call. -/
  search : List String → Int → Except Unit (List String)
  /-- the content string returned by the summarizer LLM call. -/
  summarizer_llm : String → String
  /-- the DB insert of `(caller_number, escalated_to, reason)`; `.error` is a
  `mysql.connector.Error`. -/
  db_insert : String → String → String → Except Unit Unit

/-- The user-message content of the normalizer call:
`f"History:\n{history or '[none]'}\n\nLatest:\n{question}"`. -/
def normUserContent (question : String) (history : Option String) : String :=
  "History:\n" ++ pyOrStr history "[none]" ++ "\n\nLatest:\n" ++ question

/-- helper #1, `rewrite_and_detect`: one structured LLM call returning
`(args["rewritten_query"].strip(), bool(args["is_escalation"]))`; any decoding
failure propagates as an exception. -/
def rewrite_and_detect (env : Env) (question : String) (history : Option String) :
    Except RagError (String × Bool) :=
  match env.normalizer_args (normUserContent question history) with
  | .error _ => .error .jsonDecodeError
  | .ok args =>
    match dictGet args "rewritten_query" with
    | none => .error (.keyError "rewritten_query")
    | some (.str s) =>
      match dictGet args "is_escalation" with
      | none => .error (.keyError "is_escalation")
      | some ie => .ok (pyStrip s, truthy ie)
    | some _ => .error .attributeError

/-- The prompt of the tag-extraction call. -/
def tagPrompt (query : String) : String :=
  "Extract 3-7 concise keywords (comma-separated, no extra text) " ++
  "that best represent this query:\n\n" ++ query

/-- The parsing step of helper #2:
`[t.strip() for t in content.split(",") if t.strip()]`. -/
def parseTags (content : String) : List String :=
  (pySplitComma content).filterMap fun t =>
    if pyStrip t = "" then none else some (pyStrip t)

/-- helper #2, `extract_tags`: one LLM call, then comma-split parsing. -/
def extract_tags (env : Env) (query : String) : List String :=
  parseTags (env.tag_llm (tagPrompt query))

/-- helper #3, `retrieve`: the vector search with `try/except Exception`
returning `[]` on any error. -/
def retrieve (env : Env) (tags : List String) (k : Int) : List String :=
  match env.search tags k with
  | .ok chunks => chunks
  | .error _ => []

/-- helper #4, `make_reason`: one summarizer LLM call, response stripped. -/
def make_reason (env : Env) (text : String) : String :=
  pyStrip (env.summarizer_llm text)

/-- helper #5, `write_escalation`: the DB insert with
`try/except mysql.connector.Error` that logs and swallows the error, so it
returns normally on both paths. -/
def write_escalation (env : Env) (caller toNum reason : String) : Except Unit Unit :=
  match env.db_insert caller toNum reason with
  | .ok _ => .ok ()
  | .error _ => .ok ()

/-- The `/context` endpoint `get_context`: the whole turn, returning the
response (or the propagated exception) together with the trace of external
calls in program order. -/
def get_context (env : Env) (req : RagRequest) :
    Except RagError RagResponse × List Event :=
  let k := pyOrInt req.k env.default_k
  let content := normUserContent req.question req.history
  match rewrite_and_detect env req.question req.history with
  | .error e => (.error e, [.normalizerCall content])
  | .ok (rewritten, isEsc) =>
    if isEsc then
      let text := pyOrStr req.history req.question
      let reason := make_reason env text
      let caller := pyOrStr req.caller_number "unknown"
      let toNum := pyOrStr req.escalated_to "unknown"
      match write_escalation env caller toNum reason with
      | .error _ =>
        (.error .dbError,
         [.normalizerCall content, .summarizerCall text,
          .recordCall caller toNum reason])
      | .ok _ =>
        (.ok ⟨"", true⟩,
         [.normalizerCall content, .summarizerCall text,
          .recordCall caller toNum reason])
    else
      let tags := extract_tags env rewritten
      let chunks := retrieve env tags k
      (.ok ⟨String.intercalate "\n---\n" chunks, false⟩,
       [.normalizerCall content, .tagCall rewritten, .searchCall tags k])

/-! ### Spec-side definitions

Written from the spec's words, to be compared with the embedded code. -/

/-- Spec-side description of context assembly: the chunk texts "joined with
the fixed delimiter `\n---\n` in the order the index returned them", empty
string for zero chunks. -/
def specJoin : List String → String
  | [] => ""
  | [c] => c
  | c :: c2 :: cs => c ++ "\n---\n" ++ specJoin (c2 :: cs)

/-- The tail produced by `String.intercalate.go`: the separator before each
remaining element (proof device for relating `String.intercalate` to
`specJoin`). -/
def joinTail : List String → String
  | [] => ""
  | a :: as => "\n---\n" ++ a ++ joinTail as

/-- Spec-side description of tag parsing: "the comma-separated tokens of
that string with surrounding whitespace trimmed and empty tokens dropped, in
their original order". -/
def tagSpec (content : String) : List String :=
  ((pySplitComma content).map pyStrip).filter fun t => t ≠ ""

/-- Spec-side fallback rule: use the supplied value unless it is absent or
empty, else the default. -/
def fallbackSpec : Option String → String → String
  | none, d => d
  | some s, d => if s = "" then d else s

/-! ### Request field updates (used to compare falsy-supplied vs absent) -/

/-- `req` with the `k` field replaced. -/
def setK (r : RagRequest) (v : Option Int) : RagRequest :=
  ⟨r.question, r.history, r.caller_number, r.escalated_to, v⟩

/-- `req` with the `history` field replaced. -/
def setHistory (r : RagRequest) (v : Option String) : RagRequest :=
  ⟨r.question, v, r.caller_number, r.escalated_to, r.k⟩

/-- `req` with the `caller_number` field replaced. -/
def setCaller (r : RagRequest) (v : Option String) : RagRequest :=
  ⟨r.question, r.history, v, r.escalated_to, r.k⟩

/-- `req` with the `escalated_to` field replaced. -/
def setEscTo (r : RagRequest) (v : Option String) : RagRequest :=
  ⟨r.question, r.history, r.caller_number, v, r.k⟩

/-! ### Concrete environments and requests (for witnesses/counterexamples) -/

/-- A healthy non-escalation environment: the normalizer rewrites to
`"refund policy"` (with padding whitespace to exercise `strip`), the tag LLM
answers three comma-separated tags, and the search returns two chunks for
exactly that tag list with limit 2. -/
def envRetrieveOk : Env :=
  ⟨4,
   fun _ => .ok [("rewritten_query", .str " refund policy "),
                 ("is_escalation", .bool false)],
   fun _ => "refund, policy, return",
   fun ts l => if ts = ["refund", "policy", "return"] ∧ l = 2 then
       .ok ["Chunk A", "Chunk B"] else .error (),
   fun _ => "CONVERSATION: x\nESCALATION: y",
   fun _ _ _ => .ok ()⟩

/-- Like `envRetrieveOk`, but the vector search raises on every call. -/
def envSearchFail : Env :=
  ⟨4,
   fun _ => .ok [("rewritten_query", .str "refund policy"),
                 ("is_escalation", .bool false)],
   fun _ => "refund, policy, return",
   fun _ _ => .error (),
   fun _ => "CONVERSATION: x\nESCALATION: y",
   fun _ _ _ => .ok ()⟩

/-- Like `envRetrieveOk`, but the vector search finds zero chunks. -/
def envNoChunks : Env :=
  ⟨4,
   fun _ => .ok [("rewritten_query", .str "refund policy"),
                 ("is_escalation", .bool false)],
   fun _ => "refund, policy, return",
   fun _ _ => .ok [],
   fun _ => "CONVERSATION: x\nESCALATION: y",
   fun _ _ _ => .ok ()⟩

/-- An escalation environment whose DB insert always fails with a
`mysql.connector.Error`. -/
def envEscalateDbFail : Env :=
  ⟨4,
   fun _ => .ok [("rewritten_query", .str "request human agent"),
                 ("is_escalation", .bool true)],
   fun _ => "tag",
   fun _ _ => .ok ["Chunk A"],
   fun t => "CONVERSATION: summary of " ++ t ++ "\nESCALATION: wants human",
   fun _ _ _ => .error ()⟩

/-- A normalizer whose function-call arguments are missing the
`is_escalation` key. -/
def envMissingKey : Env :=
  ⟨4,
   fun _ => .ok [("rewritten_query", .str "x")],
   fun _ => "tag",
   fun _ _ => .ok ["Chunk A"],
   fun _ => "s",
   fun _ _ _ => .ok ()⟩

/-- A normalizer that returns a whitespace-only rewritten query. -/
def envWhitespaceRw : Env :=
  ⟨4,
   fun _ => .ok [("rewritten_query", .str "   "),
                 ("is_escalation", .bool false)],
   fun _ => "tag",
   fun _ _ => .ok [],
   fun _ => "s",
   fun _ _ _ => .ok ()⟩

/-- A normalizer that returns a padded rewritten query `"  hi  "`. -/
def envPaddedRw : Env :=
  ⟨4,
   fun _ => .ok [("rewritten_query", .str "  hi  "),
                 ("is_escalation", .bool false)],
   fun _ => "tag",
   fun _ _ => .ok [],
   fun _ => "s",
   fun _ _ _ => .ok ()⟩

/-- A plain request: question only, result count 2. -/
def baseReq : RagRequest :=
  ⟨"What is the refund policy?", none, none, none, some 2⟩

/-- An escalation-style request with every optional field absent. -/
def escReq : RagRequest :=
  ⟨"I want to speak to a human", none, none, none, none⟩

/-- An escalation-style request whose optional fields are supplied but
empty (Python-falsy). -/
def escReqEmptyFields : RagRequest :=
  ⟨"I want to speak to a human", some "", some "", some "", none⟩

/-! ### Helper lemmas -/

/-- The `try/except` of helper #5 swallows every DB error: `write_escalation`
returns normally on both paths. -/
theorem write_escalation_eq_ok (env : Env) (c t r : String) :
    write_escalation env c t r = .ok () := by
  unfold write_escalation
  cases env.db_insert c t r with
  | ok u => rfl
  | error e => rfl

/-- A turn whose normalizer call fails: the exception propagates and the
trace stops after the normalizer call. -/
theorem get_context_of_error (env : Env) (req : RagRequest) (e : RagError)
    (h : rewrite_and_detect env req.question req.history = .error e) :
    get_context env req =
      (.error e, [.normalizerCall (normUserContent req.question req.history)]) := by
  unfold get_context
  rw [h]

/-- A turn classified as escalation: summarize, record, return the fixed
escalation response. -/
theorem get_context_of_esc (env : Env) (req : RagRequest) (rw : String)
    (h : rewrite_and_detect env req.question req.history = .ok (rw, true)) :
    get_context env req =
      (.ok ⟨"", true⟩,
       [.normalizerCall (normUserContent req.question req.history),
        .summarizerCall (pyOrStr req.history req.question),
        .recordCall (pyOrStr req.caller_number "unknown")
          (pyOrStr req.escalated_to "unknown")
          (make_reason env (pyOrStr req.history req.question))]) := by
  unfold get_context
  rw [h]
  simp [write_escalation_eq_ok]

/-- A turn classified as non-escalation: extract tags, search, join chunks. -/
theorem get_context_of_noesc (env : Env) (req : RagRequest) (rw : String)
    (h : rewrite_and_detect env req.question req.history = .ok (rw, false)) :
    get_context env req =
      (.ok ⟨String.intercalate "\n---\n"
              (retrieve env (extract_tags env rw) (pyOrInt req.k env.default_k)),
            false⟩,
       [.normalizerCall (normUserContent req.question req.history),
        .tagCall rw,
        .searchCall (extract_tags env rw) (pyOrInt req.k env.default_k)]) := by
  unfold get_context
  rw [h]
  simp

/-- `String.intercalate.go` appends `joinTail` of the remaining elements to
the accumulator. -/
theorem intercalate_go_eq_joinTail (l : List String) :
    ∀ acc, String.intercalate.go acc "\n---\n" l = acc ++ joinTail l := by
  induction l with
  | nil =>
    intro acc
    simp [String.intercalate.go, joinTail, String.append_empty]
  | cons a as ih =>
    intro acc
    rw [String.intercalate.go, ih, joinTail]
    simp [String.append_assoc]

/-- Prepending a head to `joinTail` gives the spec-side join. -/
theorem cons_joinTail (as : List String) :
    ∀ a, a ++ joinTail as = specJoin (a :: as) := by
  induction as with
  | nil =>
    intro a
    simp [joinTail, specJoin, String.append_empty]
  | cons b bs ih =>
    intro a
    rw [specJoin, ← ih b, joinTail]
    simp [String.append_assoc]

/-- The source's join (`"\n---\n".join(chunks)`) agrees with the spec's
description of context assembly. -/
theorem intercalate_eq_specJoin (l : List String) :
    String.intercalate "\n---\n" l = specJoin l := by
  cases l with
  | nil => rfl
  | cons a as => rw [String.intercalate, intercalate_go_eq_joinTail, cons_joinTail]

/-- The source's comprehension parsing agrees with the spec's "split, trim,
drop empties, keep order" description. -/
theorem parseTags_eq_tagSpec (content : String) :
    parseTags content = tagSpec content := by
  unfold parseTags tagSpec
  induction pySplitComma content with
  | nil => rfl
  | cons a l ih =>
    simp only [List.filterMap_cons, List.map_cons, List.filter_cons]
    by_cases hsa : pyStrip a = ""
    · simp [hsa, ih]
    · simp [hsa, ih]

/-- Every turn's trace starts with the normalizer call on the request's
question and history. -/
theorem get_context_trace_head (env : Env) (req : RagRequest) :
    (get_context env req).2.head? =
      some (.normalizerCall (normUserContent req.question req.history)) := by
  rcases h : rewrite_and_detect env req.question req.history with e | ⟨rw, esc⟩
  · rw [get_context_of_error env req e h]
    rfl
  · cases esc
    · rw [get_context_of_noesc env req rw h]
      rfl
    · rw [get_context_of_esc env req rw h]
      rfl

/-- The embedded Python `or`-fallback coincides with the spec-side
"absent or empty" fallback rule. -/
theorem pyOrStr_eq_fallbackSpec (o : Option String) (d : String) :
    pyOrStr o d = fallbackSpec o d := by
  cases o <;> rfl

/-! ### Claim theorems -/

/-- Claim C1, amended: every successfully processed escalation turn returns
an empty context (`is_escalation = true` implies `context = ""`, so never
both a non-empty context and the escalation flag); the converse direction of
the claimed `iff` fails, because a non-escalation turn whose retrieval yields
zero chunks also returns an empty context. -/
theorem C1_escalation_implies_empty_context (env : Env) (req : RagRequest)
    (resp : RagResponse) (h : (get_context env req).1 = .ok resp) :
    resp.is_escalation = true → resp.context = "" := by
  intro hesc
  rcases he : rewrite_and_detect env req.question req.history with e | ⟨rw, esc⟩
  · rw [get_context_of_error env req e he] at h
    exact Except.noConfusion h
  · cases esc
    · rw [get_context_of_noesc env req rw he] at h
      have h2 := Except.ok.inj h
      rw [← h2] at hesc
      simp at hesc
    · rw [get_context_of_esc env req rw he] at h
      have h2 := Except.ok.inj h
      rw [← h2]

/-- Claim C1, counterexample to the stated `iff`: a concrete non-escalation
turn whose search returns zero chunks produces `context = ""` together with
`is_escalation = false`. -/
theorem C1_empty_context_without_escalation_cex :
    (get_context envNoChunks baseReq).1 = .ok ⟨"", false⟩ := by decide

/-- Witness for the amended claim C1 at a concrete escalation turn. -/
theorem C1_escalation_implies_empty_context_witness :
    (get_context envEscalateDbFail escReq).1 = .ok ⟨"", true⟩ ∧
    (⟨"", true⟩ : RagResponse).context = "" :=
  ⟨by decide,
   C1_escalation_implies_empty_context envEscalateDbFail escReq ⟨"", true⟩
     (by decide) rfl⟩

/-- Claim C2: the two branches of a turn are mutually exclusive. If the
normalizer reports escalation, the summarizer and the recorder are invoked
and the tag extractor and the retriever are not; if it reports
non-escalation, the tag extractor and the retriever are invoked and the
summarizer and the recorder are not. -/
theorem C2_branch_exclusivity (env : Env) (req : RagRequest) (rw : String)
    (esc : Bool)
    (h : rewrite_and_detect env req.question req.history = .ok (rw, esc)) :
    (esc = true →
      (∃ t, Event.summarizerCall t ∈ (get_context env req).2) ∧
      (∃ c d r, Event.recordCall c d r ∈ (get_context env req).2) ∧
      (∀ q, Event.tagCall q ∉ (get_context env req).2) ∧
      (∀ ts l, Event.searchCall ts l ∉ (get_context env req).2)) ∧
    (esc = false →
      (∃ q, Event.tagCall q ∈ (get_context env req).2) ∧
      (∃ ts l, Event.searchCall ts l ∈ (get_context env req).2) ∧
      (∀ t, Event.summarizerCall t ∉ (get_context env req).2) ∧
      (∀ c d r, Event.recordCall c d r ∉ (get_context env req).2)) := by
  cases esc
  · refine And.intro (fun hT => absurd hT (by decide)) (fun hF => ?_)
    rw [get_context_of_noesc env req rw h]
    refine ⟨⟨rw, ?_⟩, ⟨extract_tags env rw, pyOrInt req.k env.default_k, ?_⟩, ?_, ?_⟩
    · simp
    · simp
    · intro t
      simp
    · intro c d r
      simp
  · refine And.intro (fun hT => ?_) (fun hF => absurd hF (by decide))
    rw [get_context_of_esc env req rw h]
    refine ⟨⟨pyOrStr req.history req.question, ?_⟩,
      ⟨pyOrStr req.caller_number "unknown", pyOrStr req.escalated_to "unknown",
       make_reason env (pyOrStr req.history req.question), ?_⟩, ?_, ?_⟩
    · simp
    · simp
    · intro q
      simp
    · intro ts l
      simp

/-- Witness for claim C2: at a concrete escalating environment, the
summarizer is invoked and the tag extractor is not. -/
theorem C2_branch_exclusivity_witness :
    (∃ t, Event.summarizerCall t ∈ (get_context envEscalateDbFail escReq).2) ∧
    (∀ q, Event.tagCall q ∉ (get_context envEscalateDbFail escReq).2) :=
  ⟨((C2_branch_exclusivity envEscalateDbFail escReq "request human agent" true
      (by decide)).1 rfl).1,
   ((C2_branch_exclusivity envEscalateDbFail escReq "request human agent" true
      (by decide)).1 rfl).2.2.1⟩

/-- Claim C3: a malformed or missing structured field in the normalizer's
response makes the turn fail with the propagated error — no fallback value —
and none of the summarizer, recorder, tag extractor or retriever is
invoked. -/
theorem C3_classification_failure_is_fatal (env : Env) (req : RagRequest)
    (e : RagError)
    (h : rewrite_and_detect env req.question req.history = .error e) :
    (get_context env req).1 = .error e ∧
    (∀ t, Event.summarizerCall t ∉ (get_context env req).2) ∧
    (∀ c d r, Event.recordCall c d r ∉ (get_context env req).2) ∧
    (∀ q, Event.tagCall q ∉ (get_context env req).2) ∧
    (∀ ts l, Event.searchCall ts l ∉ (get_context env req).2) := by
  rw [get_context_of_error env req e h]
  exact ⟨rfl, fun t => by simp, fun c d r => by simp, fun q => by simp,
    fun ts l => by simp⟩

/-- Witness for claim C3: a normalizer response missing the `is_escalation`
key fails the turn with a `KeyError` and invokes no tag extractor. -/
theorem C3_classification_failure_is_fatal_witness :
    (get_context envMissingKey baseReq).1 = .error (.keyError "is_escalation") ∧
    Event.tagCall "x" ∉ (get_context envMissingKey baseReq).2 :=
  ⟨(C3_classification_failure_is_fatal envMissingKey baseReq
      (.keyError "is_escalation") (by decide)).1,
   (C3_classification_failure_is_fatal envMissingKey baseReq
      (.keyError "is_escalation") (by decide)).2.2.2.1 "x"⟩

/-- Claim C4: on a non-escalation turn whose vector search raises,
`retrieve` returns the empty list instead of propagating, and the turn
completes normally with an empty context and `is_escalation = false`. -/
theorem C4_retrieval_failure_degrades_to_empty (env : Env) (req : RagRequest)
    (rw : String)
    (h : rewrite_and_detect env req.question req.history = .ok (rw, false))
    (hs : env.search (extract_tags env rw) (pyOrInt req.k env.default_k) =
      .error ()) :
    retrieve env (extract_tags env rw) (pyOrInt req.k env.default_k) = [] ∧
    (get_context env req).1 = .ok ⟨"", false⟩ := by
  have hr : retrieve env (extract_tags env rw) (pyOrInt req.k env.default_k) = [] := by
    unfold retrieve
    rw [hs]
  refine ⟨hr, ?_⟩
  rw [get_context_of_noesc env req rw h]
  simp only [hr]
  rfl

/-- Witness for claim C4 at a concrete always-failing search. -/
theorem C4_retrieval_failure_degrades_to_empty_witness :
    retrieve envSearchFail (extract_tags envSearchFail "refund policy")
      (pyOrInt baseReq.k envSearchFail.default_k) = [] ∧
    (get_context envSearchFail baseReq).1 = .ok ⟨"", false⟩ :=
  C4_retrieval_failure_degrades_to_empty envSearchFail baseReq "refund policy"
    (by decide) (by decide)

/-- Claim C5: escalation recording is best-effort. `write_escalation`
returns normally on every DB outcome (the error is logged and swallowed),
and the escalation turn still returns the unchanged escalation response. -/
theorem C5_persistence_failure_swallowed (env : Env) (req : RagRequest)
    (rw : String)
    (h : rewrite_and_detect env req.question req.history = .ok (rw, true)) :
    (∀ c d r, write_escalation env c d r = .ok ()) ∧
    (get_context env req).1 = .ok ⟨"", true⟩ :=
  ⟨fun c d r => write_escalation_eq_ok env c d r,
   by rw [get_context_of_esc env req rw h]⟩

/-- Witness for claim C5 at a concrete environment whose DB insert always
fails. -/
theorem C5_persistence_failure_swallowed_witness :
    write_escalation envEscalateDbFail "a" "b" "c" = .ok () ∧
    (get_context envEscalateDbFail escReq).1 = .ok ⟨"", true⟩ :=
  ⟨(C5_persistence_failure_swallowed envEscalateDbFail escReq
      "request human agent" (by decide)).1 "a" "b" "c",
   (C5_persistence_failure_swallowed envEscalateDbFail escReq
      "request human agent" (by decide)).2⟩

/-- Claim C6: on a non-escalation turn the returned context is the retrieved
chunk texts joined with the fixed delimiter `"\n---\n"` in index order
(`specJoin`), the empty string for zero chunks. -/
theorem C6_context_is_joined_chunks (env : Env) (req : RagRequest)
    (rw : String) (chunks : List String)
    (h : rewrite_and_detect env req.question req.history = .ok (rw, false))
    (hs : env.search (extract_tags env rw) (pyOrInt req.k env.default_k) =
      .ok chunks) :
    (get_context env req).1 = .ok ⟨specJoin chunks, false⟩ := by
  have hr : retrieve env (extract_tags env rw) (pyOrInt req.k env.default_k) = chunks := by
    unfold retrieve
    rw [hs]
  rw [get_context_of_noesc env req rw h]
  simp [hr, intercalate_eq_specJoin]

/-- Witness for claim C6: chunks `["Chunk A", "Chunk B"]` assemble to
`"Chunk A\n---\nChunk B"`, and zero chunks assemble to `""`. -/
theorem C6_context_is_joined_chunks_witness :
    (get_context envRetrieveOk baseReq).1 =
      .ok ⟨specJoin ["Chunk A", "Chunk B"], false⟩ ∧
    specJoin ["Chunk A", "Chunk B"] = "Chunk A\n---\nChunk B" ∧
    specJoin ([] : List String) = "" :=
  ⟨C6_context_is_joined_chunks envRetrieveOk baseReq "refund policy"
      ["Chunk A", "Chunk B"] (by decide) (by decide),
   by decide, rfl⟩

/-- Claim C7, amended: on every escalation turn the summarizer is invoked on
the full history when a non-empty history is supplied and on the raw
question when history is absent **or empty** (Python falsiness), and the
recorder is invoked with `"unknown"` in place of an absent-or-empty caller
identifier and escalation target. The unamended claim fails when
`history = some ""` (see the counterexample). -/
theorem C7_escalation_summarizer_and_recorder_inputs (env : Env)
    (req : RagRequest) (rw : String)
    (h : rewrite_and_detect env req.question req.history = .ok (rw, true)) :
    Event.summarizerCall (fallbackSpec req.history req.question) ∈
      (get_context env req).2 ∧
    Event.recordCall (fallbackSpec req.caller_number "unknown")
      (fallbackSpec req.escalated_to "unknown")
      (make_reason env (fallbackSpec req.history req.question)) ∈
      (get_context env req).2 := by
  rw [get_context_of_esc env req rw h]
  rw [← pyOrStr_eq_fallbackSpec req.history req.question,
      ← pyOrStr_eq_fallbackSpec req.caller_number "unknown",
      ← pyOrStr_eq_fallbackSpec req.escalated_to "unknown"]
  exact ⟨by simp, by simp⟩

/-- Claim C7, counterexample to the unamended claim: with
`history = some ""` (history supplied, hence "present") the summarizer is
invoked on the raw question, not on the supplied history. -/
theorem C7_history_present_but_empty_cex :
    escReqEmptyFields.history = some "" ∧
    Event.summarizerCall escReqEmptyFields.question ∈
      (get_context envEscalateDbFail escReqEmptyFields).2 ∧
    Event.summarizerCall "" ∉
      (get_context envEscalateDbFail escReqEmptyFields).2 := by decide

/-- Witness for the amended claim C7 at a concrete escalation turn with all
optional fields absent. -/
theorem C7_escalation_summarizer_and_recorder_inputs_witness :
    Event.summarizerCall "I want to speak to a human" ∈
      (get_context envEscalateDbFail escReq).2 ∧
    Event.recordCall "unknown" "unknown"
      (make_reason envEscalateDbFail "I want to speak to a human") ∈
      (get_context envEscalateDbFail escReq).2 :=
  C7_escalation_summarizer_and_recorder_inputs envEscalateDbFail escReq
    "request human agent" (by decide)

/-- Claim C8: tag parsing returns exactly the comma-separated tokens of the
LLM response, whitespace-trimmed, empty tokens dropped, order preserved
(`tagSpec`); no 3–7 count bound is enforced (eight tokens pass through) and
an all-empty response yields the empty list, not an error. -/
theorem C8_tag_parsing_is_lenient (env : Env) :
    (∀ content, parseTags content = tagSpec content) ∧
    (∀ query, extract_tags env query = tagSpec (env.tag_llm (tagPrompt query))) ∧
    (parseTags "a, b, c, d, e, f, g, h").length = 8 ∧
    parseTags " , ,, " = [] :=
  ⟨fun content => parseTags_eq_tagSpec content,
   fun query => parseTags_eq_tagSpec (env.tag_llm (tagPrompt query)),
   by decide, by decide⟩

/-- Claim C9, amended: the normalizer's rewritten query is exactly the
Python-`strip` of the string the LLM returned in `rewritten_query` (and the
escalation flag the truthiness of `is_escalation`); non-emptiness is **not**
enforced, so the rewritten query is empty whenever the LLM returns a
whitespace-only string (see the counterexample). -/
theorem C9_rewritten_query_is_stripped_llm_field (env : Env) (q : String)
    (hist : Option String) (rw : String) (esc : Bool)
    (h : rewrite_and_detect env q hist = .ok (rw, esc)) :
    ∃ args s ie,
      env.normalizer_args (normUserContent q hist) = .ok args ∧
      dictGet args "rewritten_query" = some (.str s) ∧
      dictGet args "is_escalation" = some ie ∧
      rw = pyStrip s ∧ esc = truthy ie := by
  unfold rewrite_and_detect at h
  split at h
  next u heq =>
    exact Except.noConfusion h
  next args heq =>
    split at h
    next hrq =>
      exact Except.noConfusion h
    next s hrq =>
      split at h
      next hie =>
        exact Except.noConfusion h
      next ie hie =>
        have h2 := Except.ok.inj h
        have hrw : rw = pyStrip s := (congrArg Prod.fst h2).symm
        have hesc : esc = truthy ie := (congrArg Prod.snd h2).symm
        exact ⟨args, s, ie, heq, hrq, hie, hrw, hesc⟩
    next v hne hrq =>
      exact Except.noConfusion h

/-- Claim C9, counterexample to the unamended claim: a whitespace-only LLM
`rewritten_query` makes the normalizer yield an empty rewritten query. -/
theorem C9_empty_rewritten_query_cex :
    rewrite_and_detect envWhitespaceRw "hi" none = .ok ("", false) := by decide

/-- Witness for the amended claim C9 at a concrete padded LLM response. -/
theorem C9_rewritten_query_is_stripped_llm_field_witness :
    rewrite_and_detect envPaddedRw "q" none = .ok ("hi", false) ∧
    (∃ args s ie,
      envPaddedRw.normalizer_args (normUserContent "q" none) = .ok args ∧
      dictGet args "rewritten_query" = some (.str s) ∧
      dictGet args "is_escalation" = some ie ∧
      "hi" = pyStrip s ∧ false = truthy ie) :=
  ⟨by decide,
   C9_rewritten_query_is_stripped_llm_field envPaddedRw "q" none "hi" false
     (by decide)⟩

/-- Claim C10: a falsy supplied optional field behaves exactly as an absent
one — `k = 0`, `history = ""`, `caller_number = ""` and `escalated_to = ""`
each give the same response and the same external-call trace as omitting the
field, and an empty history makes the normalizer see the `[none]` marker. -/
theorem C10_falsy_fields_behave_as_absent (env : Env) (req : RagRequest) :
    get_context env (setK req (some 0)) = get_context env (setK req none) ∧
    get_context env (setHistory req (some "")) =
      get_context env (setHistory req none) ∧
    get_context env (setCaller req (some "")) =
      get_context env (setCaller req none) ∧
    get_context env (setEscTo req (some "")) =
      get_context env (setEscTo req none) ∧
    (get_context env (setHistory req (some ""))).2.head? =
      some (.normalizerCall ("History:\n[none]\n\nLatest:\n" ++ req.question)) := by
  refine ⟨?_, ?_, ?_, ?_, ?_⟩
  · simp [get_context, setK, pyOrInt]
  · simp [get_context, setHistory, rewrite_and_detect, normUserContent, pyOrStr]
  · simp [get_context, setCaller, pyOrStr]
  · simp [get_context, setEscTo, pyOrStr]
  · rw [get_context_trace_head]
    simp [setHistory, normUserContent, pyOrStr]

end RAG
